import Mathlib

/-!
Verification of the EV Range Prediction repository (app.py / apps.py).

A shallow embedding of the Prediction-and-Feasibility Engine: the dual-model
prediction action, the route resolver with its POST/GET/geodesic fallback
chain, geometry normalization of provider GeoJSON, and the feasibility
comparison. Numeric values are modelled as exact rationals; the external
geodesic library is passed in as a function parameter; network responses and
model invocations are modelled by explicit outcome types.
-/

namespace EVRange

/-- A geographic coordinate (latitude, longitude) in decimal degrees. -/
structure Coordinate where
  lat : ℚ
  lon : ℚ
deriving DecidableEq

/-- A message surfaced to the user, tagged with the Streamlit level that the
code uses (st.error, st.warning, st.info, st.success, st.caption). -/
inductive AppMsg where
  | error (text : String)
  | warning (text : String)
  | info (text : String)
  | success (text : String)
  | caption (text : String)
deriving DecidableEq

/-- Geometry of the first feature of a provider response, decoded from the
dynamic dict probing in draw_route_from_geojson: the code compares
geom.get("type") against "LineString" and "MultiLineString" and treats any
other type as unexpected. Points are (lon, lat) pairs, the provider order. -/
inductive Geometry where
  | lineString (coords : List (ℚ × ℚ))
  | multiLineString (coords : List (List (ℚ × ℚ)))
  | other (gtype : String)
deriving DecidableEq

/-- A GeoJSON feature as the code reads it: geometry plus the optional
properties.summary.distance (meters) and properties.summary.duration
(seconds); a missing field is None and the code defaults it to 0. -/
structure Feature where
  geometry : Geometry
  summaryDistance : Option ℚ
  summaryDuration : Option ℚ
deriving DecidableEq

/-- A feature collection: the "features" list of the response body. -/
structure FeatureCollection where
  features : List Feature
deriving DecidableEq

/-- apps.py line 129: to_latlon swaps each provider [lon, lat] point into the
canonical (lat, lon) order. -/
def to_latlon (seq : List (ℚ × ℚ)) : List (ℚ × ℚ) :=
  seq.map fun pt => (pt.2, pt.1)

/-- apps.py lines 131-138: build route_latlon from the geometry. A LineString
converts directly, a MultiLineString extends with each converted segment in
order, and any other type yields no points and a warning naming the type. -/
def routePoints (g : Geometry) : List (ℚ × ℚ) × List AppMsg :=
  match g with
  | .lineString coords => (to_latlon coords, [])
  | .multiLineString coords =>
      (coords.foldl (fun acc seg => acc ++ to_latlon seg) [], [])
  | .other gtype =>
      ([], [.warning ("Unexpected geometry type from ORS: " ++ gtype)])

/-- Outcome of draw_route_from_geojson: either a route was drawn (with the
summary distance in km and duration in minutes, each defaulting to 0 when the
summary field is absent), or nothing was drawn (the function returned False). -/
inductive DrawOutcome where
  | drawn (path : List (ℚ × ℚ)) (distKm durMin : ℚ)
  | notDrawn
deriving DecidableEq

/-- apps.py lines 116-151: draw_route_from_geojson. `none` models a response
body that is not a dict. The first feature is used; an empty features list or
an empty canonical path returns False (notDrawn). -/
def draw_route_from_geojson (fc : Option FeatureCollection) :
    DrawOutcome × List AppMsg :=
  match fc with
  | none => (.notDrawn, [])
  | some col =>
    match col.features with
    | [] => (.notDrawn, [])
    | feat :: _ =>
      let pw := routePoints feat.geometry
      if pw.1 = [] then (.notDrawn, pw.2)
      else
        (.drawn pw.1 ((feat.summaryDistance.getD 0) / 1000)
          ((feat.summaryDuration.getD 0) / 60), pw.2)

/-- Outcome of one network request as the code observes it: status 200 with a
parsed body (`none` when the body is not a dict), a non-200 status with its
text, or a raised requests.RequestException (transport error or timeout). -/
inductive HttpOutcome where
  | success (fc : Option FeatureCollection)
  | httpError (status : Nat) (text : String)
  | transportError (msg : String)
deriving DecidableEq

/-- A network attempt the script issued, with the timeout passed to requests
(both calls in apps.py use timeout=20 seconds). -/
structure NetAttempt where
  method : String
  timeout : ℚ
deriving DecidableEq

/-- The POST call of apps.py lines 159-170 with timeout=20. -/
def postAttempt : NetAttempt := ⟨"POST", 20⟩

/-- The GET call of apps.py lines 174-189 with timeout=20. -/
def getAttempt : NetAttempt := ⟨"GET", 20⟩

/-- apps.py lines 159-170: the POST attempt. On 200 the body goes through
draw_route_from_geojson; a 200 with nothing drawn adds the retry warning;
a non-200 status or a raised exception is reported with st.error. -/
def postPhase (r : HttpOutcome) : DrawOutcome × List AppMsg :=
  match r with
  | .success fc =>
    match draw_route_from_geojson fc with
    | (.drawn p dk dm, ws) => (.drawn p dk dm, ws)
    | (.notDrawn, ws) =>
        (.notDrawn,
          ws ++ [.warning "POST returned 200 but no features; trying GET fallback…"])
  | .httpError s t => (.notDrawn, [.error ("ORS POST " ++ toString s ++ ": " ++ t)])
  | .transportError m => (.notDrawn, [.error ("ORS POST failed: " ++ m)])

/-- apps.py lines 174-189: the GET attempt, run only when the POST produced no
route; same shape as the POST attempt with its own messages. -/
def getPhase (r : HttpOutcome) : DrawOutcome × List AppMsg :=
  match r with
  | .success fc =>
    match draw_route_from_geojson fc with
    | (.drawn p dk dm, ws) => (.drawn p dk dm, ws)
    | (.notDrawn, ws) =>
        (.notDrawn, ws ++ [.error "GET returned 200 but no features."])
  | .httpError s t => (.notDrawn, [.error ("ORS GET " ++ toString s ++ ": " ++ t)])
  | .transportError m => (.notDrawn, [.error ("ORS GET failed: " ++ m)])

/-- True when the given response yields a drawn route, i.e. when the code sets
got_route = True from this attempt. -/
def usableAttempt (r : HttpOutcome) : Bool :=
  match r with
  | .success fc =>
    match (draw_route_from_geojson fc).1 with
    | .drawn _ _ _ => true
    | .notDrawn => false
  | _ => false

/-- The result of route resolution: a routed path with the summary distance
(km) and duration (min) shown for it, or the straight-line fallback carrying
the geodesic distance between the endpoints (the trip_km of line 201). -/
inductive RouteResult where
  | routed (path : List (ℚ × ℚ)) (distKm durMin : ℚ)
  | fallback (distKm : ℚ)
deriving DecidableEq

/-- The distance in kilometers exposed by either RouteResult variant. -/
def RouteResult.distanceKm : RouteResult → ℚ
  | .routed _ dk _ => dk
  | .fallback dk => dk

/-- Everything the routing block of apps.py (lines 153-194) produces: a
RouteResult, the ordered list of network attempts issued, and the surfaced
messages. -/
structure Resolution where
  result : RouteResult
  attempts : List NetAttempt
  messages : List AppMsg
deriving DecidableEq

/-- apps.py lines 153-194: POST first; GET only when the POST drew no route;
straight-line fallback when both failed. The geodesic library is passed in as
the function geod. -/
def resolveRoute (geod : Coordinate → Coordinate → ℚ)
    (postResp getResp : HttpOutcome) (origin dest : Coordinate) : Resolution :=
  let p := postPhase postResp
  match p.1 with
  | .drawn pts dk dm => ⟨.routed pts dk dm, [postAttempt], p.2⟩
  | .notDrawn =>
    let g := getPhase getResp
    match g.1 with
    | .drawn pts dk dm => ⟨.routed pts dk dm, [postAttempt, getAttempt], p.2 ++ g.2⟩
    | .notDrawn =>
        ⟨.fallback (geod origin dest), [postAttempt, getAttempt],
          p.2 ++ g.2 ++ [.caption "⚠️ Showing straight line fallback"]⟩

/-- apps.py line 203 and app.py line 106: the feasibility comparison
trip_km <= catboost_pred, a non-strict inequality. -/
def evaluateFeasibility (tripKm predictedRange : ℚ) : Bool :=
  decide (tripKm ≤ predictedRange)

/-- Everything the guarded feasibility section of apps.py (lines 96-206)
produces once a cached prediction exists: the resolution, the trip distance
actually used by the comparison, the verdict, and the surfaced messages. -/
structure SectionOutcome where
  resolution : Resolution
  tripKm : ℚ
  reachable : Bool
  messages : List AppMsg
deriving DecidableEq

/-- apps.py lines 110-206 inside the session-state guard: resolve the route,
then (line 201) compute trip_km as the geodesic distance between the two
points — unconditionally, whatever the resolution produced — and compare it
against the cached CatBoost prediction. -/
def appsPyFeasibilitySection (geod : Coordinate → Coordinate → ℚ)
    (post get : HttpOutcome) (start station : Coordinate)
    (catboostPred : ℚ) : SectionOutcome :=
  let res := resolveRoute geod post get start station
  let trip := geod start station
  let ok := evaluateFeasibility trip catboostPred
  { resolution := res
    tripKm := trip
    reachable := ok
    messages := res.messages ++
      [if ok then AppMsg.success "Charging station is within the predicted range!"
       else AppMsg.warning "Charging station is outside the predicted range."] }

/-- The prompt of apps.py line 208. -/
def promptText : String :=
  "Please run the prediction first to verify the feasibility of the trip."

/-- apps.py lines 108 and 207-208: the whole routing-and-feasibility section
runs only when st.session_state.catboost_pred is not None; otherwise the user
is prompted to predict first and nothing else happens. -/
def appsPyGuarded (cachedCat : Option ℚ) (geod : Coordinate → Coordinate → ℚ)
    (post get : HttpOutcome) (start station : Coordinate) :
    Option SectionOutcome × List AppMsg :=
  match cachedCat with
  | some r => (some (appsPyFeasibilitySection geod post get start station r), [])
  | none => (none, [AppMsg.info promptText])

/-- Outcome of one call into an opaque model or scaler artifact: a returned
value or a raised exception with its text. -/
inductive ModelOutcome where
  | ok (v : ℚ)
  | raises (msg : String)
deriving DecidableEq

/-- The session-state prediction cache of apps.py lines 81-84:
st.session_state.rf_pred and st.session_state.catboost_pred. -/
structure PredState where
  rfPred : Option ℚ
  catPred : Option ℚ
deriving DecidableEq

/-- Text of the error written by the except handler of apps.py line 94. -/
def predErrText (m : String) : String := "⚠️ Prediction Error: " ++ m

/-- apps.py lines 86-94: the body of the predict button. The random-forest
prediction is written into session state first; then the CatBoost prediction;
a raise at either point is caught by the single except handler, which writes
one error message, leaving whatever was already assigned in place. -/
def predictAction (rf cat : ModelOutcome) (s : PredState) :
    PredState × List AppMsg :=
  match rf with
  | .raises m => (s, [.error (predErrText m)])
  | .ok rv =>
    match cat with
    | .raises m => ({ s with rfPred := some rv }, [.error (predErrText m)])
    | .ok cv => ({ rfPred := some rv, catPred := some cv }, [])

/-- apps.py lines 79-94: scaler.transform runs at line 79, outside the
try/except of the button body; if it raises, the script run aborts with the
uncaught exception and the button body never runs. -/
def runPredictionScript (scaler : ModelOutcome) (pressed : Bool)
    (rf cat : ModelOutcome) (s : PredState) :
    Except String (PredState × List AppMsg) :=
  match scaler with
  | .raises m => .error m
  | .ok _ => if pressed then .ok (predictAction rf cat s) else .ok (s, [])

/-- The error text of apps.py line 19. -/
def apiKeyErrText : String :=
  "OpenRouteService API key not found. Set ORS_API_KEY in a .env file."

/-- Result of the startup credential check: proceed with the key, or halt the
script run (st.stop) after surfacing the error. -/
inductive StartupOutcome where
  | proceed (key : String)
  | halted (err : String)
deriving DecidableEq

/-- apps.py lines 16-20: api_key = os.getenv("ORS_API_KEY"); a missing
variable (None) or an empty string is falsy, so the script writes the error
and stops. -/
def startupCheck (env : Option String) : StartupOutcome :=
  match env with
  | none => .halted apiKeyErrText
  | some k => if k = "" then .halted apiKeyErrText else .proceed k

/-- The apps.py script from the credential check through the routing section:
a halted startup surfaces only the credential error and issues no network
attempt; otherwise the guarded feasibility section runs. Returns the network
attempts issued and the surfaced messages. -/
def appsPyTop (env : Option String) (cachedCat : Option ℚ)
    (geod : Coordinate → Coordinate → ℚ) (post get : HttpOutcome)
    (start station : Coordinate) : List NetAttempt × List AppMsg :=
  match startupCheck env with
  | .halted e => ([], [AppMsg.error e])
  | .proceed _ =>
    match appsPyGuarded cachedCat geod post get start station with
    | (some s, ms) => (s.resolution.attempts, ms ++ s.messages)
    | (none, ms) => ([], ms)

/-- The warning text of apps.py line 76. -/
def nanWarnText : String :=
  "⚠️ Some input values were NaN and have been replaced with 0."

/-- apps.py lines 74-77 (and app.py lines 58-63): after pd.to_numeric with
errors=coerce each cell is a number or NaN (modelled as Option ℚ, none for
NaN); when any NaN is present a warning is shown and fillna(0) replaces every
NaN with 0. Returns the numeric vector and the surfaced messages. -/
def sanitize (fs : List (Option ℚ)) : List ℚ × List AppMsg :=
  if fs.any (fun o => o.isNone) then
    (fs.map (fun o => o.getD 0), [.warning nanWarnText])
  else
    (fs.map (fun o => o.getD 0), [])

/-- The name bound by app.py line 75 inside the button branch: catboost_pred
exists in the run only when the button was pressed this run and both model
calls succeeded (the CatBoost assignment is reached only after the
random-forest one). -/
def appPyCatboostBinding (pressed : Bool) (rf cat : ModelOutcome) : Option ℚ :=
  if pressed then
    match rf, cat with
    | .ok _, .ok cv => some cv
    | _, _ => none
  else none

/-- app.py lines 100-109: the feasibility comparison runs unconditionally on
every script run; when catboost_pred was never bound, Python raises NameError
instead of producing a verdict. -/
def appPyFeasibility (pressed : Bool) (rf cat : ModelOutcome) (dist : ℚ) :
    Except String Bool :=
  match appPyCatboostBinding pressed rf cat with
  | some r => .ok (evaluateFeasibility dist r)
  | none => .error "NameError: name catboost_pred is not defined"

/- ------------------------------------------------------------------ -/
/- Helper lemmas -/
/- ------------------------------------------------------------------ -/

theorem foldl_append_to_latlon (segs : List (List (ℚ × ℚ)))
    (acc : List (ℚ × ℚ)) :
    segs.foldl (fun a s => a ++ to_latlon s) acc
      = acc ++ (segs.map to_latlon).flatten := by
  induction segs generalizing acc with
  | nil => simp
  | cons s ss ih => simp [ih, List.append_assoc]

theorem phase_notDrawn_iff_post (r : HttpOutcome) :
    (postPhase r).1 = .notDrawn ↔ usableAttempt r = false := by
  cases r with
  | success fc =>
    rcases h : draw_route_from_geojson fc with ⟨out, ws⟩
    cases out <;> simp [postPhase, usableAttempt, h]
  | httpError s t => simp [postPhase, usableAttempt]
  | transportError m => simp [postPhase, usableAttempt]

theorem phase_notDrawn_iff_get (r : HttpOutcome) :
    (getPhase r).1 = .notDrawn ↔ usableAttempt r = false := by
  cases r with
  | success fc =>
    rcases h : draw_route_from_geojson fc with ⟨out, ws⟩
    cases out <;> simp [getPhase, usableAttempt, h]
  | httpError s t => simp [getPhase, usableAttempt]
  | transportError m => simp [getPhase, usableAttempt]

theorem sanitize_fst (fs : List (Option ℚ)) :
    (sanitize fs).1 = fs.map (fun o => o.getD 0) := by
  unfold sanitize
  split <;> rfl

theorem map_getD_set_zero (fs : List (Option ℚ)) (i : ℕ)
    (h : fs.get? i = some none) :
    fs.map (fun o => o.getD 0) = (fs.set i (some 0)).map (fun o => o.getD 0) := by
  induction fs generalizing i with
  | nil => simp at h
  | cons a t ih =>
    cases i with
    | zero =>
      simp only [List.get?_cons_zero, Option.some.injEq] at h
      subst h
      simp
    | succ n =>
      simp only [List.get?_cons_succ] at h
      simp only [List.set_cons_succ, List.map_cons]
      rw [ih n h]

theorem any_isNone_of_get (fs : List (Option ℚ)) (i : ℕ)
    (h : fs.get? i = some none) :
    fs.any (fun o => o.isNone) = true := by
  have hm : (none : Option ℚ) ∈ fs := List.get?_mem h
  exact List.any_eq_true.mpr ⟨none, hm, rfl⟩

/- ------------------------------------------------------------------ -/
/- Concrete inputs used by witnesses and counterexamples -/
/- ------------------------------------------------------------------ -/

/-- A stand-in geodesic function returning a constant 10 km. -/
def geodTen : Coordinate → Coordinate → ℚ := fun _ _ => 10

/-- A stand-in geodesic function returning the 4.49 km of the default
coordinates of the spec. -/
def geodBlr : Coordinate → Coordinate → ℚ := fun _ _ => 449 / 100

/-- The default origin of the apps (12.9716, 77.5946). -/
def cStart : Coordinate := ⟨129716 / 10000, 775946 / 10000⟩

/-- The default charging station of the apps (12.9352, 77.6245). -/
def cStation : Coordinate := ⟨129352 / 10000, 776245 / 10000⟩

/-- A feature with a two-point LineString and a 5000 m / 600 s summary. -/
def lineFeat : Feature := ⟨.lineString [(77, 12), (78, 13)], some 5000, some 600⟩

/-- A 200 response whose body holds the single feature lineFeat. -/
def postRouted : HttpOutcome := .success (some ⟨[lineFeat]⟩)

/-- A 503 response, as in the fallback test fixture of the spec. -/
def http503 : HttpOutcome := .httpError 503 "Service Unavailable"

/-- A feature whose geometry is an unexpected Point. -/
def pointFeat : Feature := ⟨.other "Point", none, none⟩

/- ------------------------------------------------------------------ -/
/- Claim theorems -/
/- ------------------------------------------------------------------ -/

/-- C1: the feasibility evaluation yields is_reachable = true iff the travel
distance is at most the predicted range (non-strict): at exact equality the
verdict is reachable, and at any excess, e.g. 0.01 km, it is not. -/
theorem c1_feasibility_iff (d r : ℚ) :
    (evaluateFeasibility d r = true ↔ d ≤ r) ∧
    evaluateFeasibility r r = true ∧
    evaluateFeasibility (r + 1 / 100) r = false := by
  refine ⟨by simp [evaluateFeasibility], by simp [evaluateFeasibility], ?_⟩
  simp only [evaluateFeasibility, decide_eq_false_iff_not]
  intro hle
  linarith

/-- C2 counterexample: a run of the feasibility section of apps.py in which
the resolver produced a Routed result with a provider distance of 5 km, yet
the trip distance used by the comparison is the geodesic 10 km, not 5 km. -/
theorem c2_counterexample :
    (appsPyFeasibilitySection geodTen postRouted http503 cStart cStation 7).resolution.result
        = RouteResult.routed [(12, 77), (13, 78)] 5 10 ∧
    (appsPyFeasibilitySection geodTen postRouted http503 cStart cStation 7).tripKm = 10 ∧
    ¬ ((10 : ℚ) = 5) := by
  refine ⟨?_, rfl, by norm_num⟩
  simp [appsPyFeasibilitySection, resolveRoute, postPhase, draw_route_from_geojson,
    routePoints, to_latlon, lineFeat, postRouted]
  norm_num

/-- C2 amended: the travel distance used by the feasibility comparison of
apps.py is always the geodesic straight-line distance between the two
coordinates, whatever RouteResult variant the resolver produced; consequently
the verdict does not depend on the provider responses at all. The provider
distance of a Routed result is only displayed, never compared. -/
theorem c2_amended (geod : Coordinate → Coordinate → ℚ)
    (post get post2 get2 : HttpOutcome) (start station : Coordinate) (r : ℚ) :
    (appsPyFeasibilitySection geod post get start station r).tripKm
        = geod start station ∧
    (appsPyFeasibilitySection geod post get start station r).reachable
        = (appsPyFeasibilitySection geod post2 get2 start station r).reachable := by
  exact ⟨rfl, rfl⟩

/-- C3: a LineString yields its points with each (lon, lat) pair swapped to
(lat, lon) in order; a MultiLineString yields the concatenation of its
converted segments in order; including the two concrete examples. -/
theorem c3_geometry_normalization (coords : List (ℚ × ℚ))
    (segs : List (List (ℚ × ℚ))) (lo1 la1 lo2 la2 lo3 la3 : ℚ) :
    (routePoints (.lineString coords)).1 = coords.map (fun pt => (pt.2, pt.1)) ∧
    (routePoints (.multiLineString segs)).1
        = (segs.map (fun seg => seg.map (fun pt => (pt.2, pt.1)))).flatten ∧
    (routePoints (.lineString [(lo1, la1), (lo2, la2)])).1
        = [(la1, lo1), (la2, lo2)] ∧
    (routePoints (.multiLineString [[(lo1, la1), (lo2, la2)], [(lo3, la3)]])).1
        = [(la1, lo1), (la2, lo2), (la3, lo3)] := by
  refine ⟨rfl, ?_, rfl, ?_⟩
  · have h2 := foldl_append_to_latlon segs []
    simpa [routePoints, to_latlon] using h2
  · simp [routePoints, to_latlon]

/-- C4: when neither the POST response nor the GET response yields a usable
path, resolution terminates with the Fallback variant whose distance is the
geodesic distance between the two coordinates; the resolver is a total
function into Resolution, so it always yields a distance and never propagates
a provider error. -/
theorem c4_fallback_guarantee (geod : Coordinate → Coordinate → ℚ)
    (post get : HttpOutcome) (origin dest : Coordinate)
    (hp : usableAttempt post = false) (hg : usableAttempt get = false) :
    (resolveRoute geod post get origin dest).result
      = RouteResult.fallback (geod origin dest) := by
  have hp1 : (postPhase post).1 = .notDrawn := (phase_notDrawn_iff_post post).mpr hp
  have hg1 : (getPhase get).1 = .notDrawn := (phase_notDrawn_iff_get get).mpr hg
  simp only [resolveRoute]
  rw [hp1, hg1]

/-- C4 witness: with both attempts answering 503, resolution at the default
coordinates falls back to the geodesic distance 4.49 km. -/
theorem c4_fallback_guarantee_witness :
    usableAttempt http503 = false ∧ usableAttempt http503 = false ∧
    (resolveRoute geodBlr http503 http503 cStart cStation).result
      = RouteResult.fallback (geodBlr cStart cStation) :=
  ⟨by decide, by decide,
    c4_fallback_guarantee geodBlr http503 http503 cStart cStation
      (by decide) (by decide)⟩

/-- C5: a feature vector with a NaN or missing field is sanitized by
replacing every such field with 0; a warning-level message (not an error) is
emitted; and the sanitized vector — hence any prediction computed from it —
equals the one obtained by explicitly passing 0 for that field. -/
theorem c5_nan_substitution (fs : List (Option ℚ)) (i : ℕ)
    (h : fs.get? i = some none) :
    (sanitize fs).2 = [AppMsg.warning nanWarnText] ∧
    (sanitize fs).1 = (sanitize (fs.set i (some 0))).1 ∧
    ∀ p : List ℚ → ℚ,
      p (sanitize fs).1 = p (sanitize (fs.set i (some 0))).1 := by
  have heq : (sanitize fs).1 = (sanitize (fs.set i (some 0))).1 := by
    rw [sanitize_fst, sanitize_fst]
    exact map_getD_set_zero fs i h
  refine ⟨?_, heq, fun p => congrArg p heq⟩
  unfold sanitize
  rw [if_pos (any_isNone_of_get fs i h)]

/-- C5 witness: the vector [some 1, none, some 3] with its second field NaN. -/
theorem c5_nan_substitution_witness :
    ([some 1, none, some 3] : List (Option ℚ)).get? 1 = some none ∧
    (sanitize [some 1, none, some 3]).2 = [AppMsg.warning nanWarnText] ∧
    (sanitize [some 1, none, some 3]).1
      = (sanitize (([some 1, none, some 3] : List (Option ℚ)).set 1 (some 0))).1 ∧
    (fun l : List ℚ => l.sum) (sanitize [some 1, none, some 3]).1
      = (fun l : List ℚ => l.sum)
          (sanitize (([some 1, none, some 3] : List (Option ℚ)).set 1 (some 0))).1 := by
  have h := c5_nan_substitution [some 1, none, some 3] 1 (by decide)
  exact ⟨by decide, h.1, h.2.1, h.2.2 (fun l => l.sum)⟩

/-- C6: the attempt chain is POST first, then GET only when the POST produced
no usable path (first success wins), never more than two network attempts,
and every attempt issued carries the finite timeout of 20 seconds. -/
theorem c6_attempt_chain (geod : Coordinate → Coordinate → ℚ)
    (post get : HttpOutcome) (origin dest : Coordinate) :
    (resolveRoute geod post get origin dest).attempts
        = (if usableAttempt post = true then [postAttempt]
           else [postAttempt, getAttempt]) ∧
    (resolveRoute geod post get origin dest).attempts.length ≤ 2 ∧
    (resolveRoute geod post get origin dest).attempts.all
        (fun a => decide (a.timeout = 20)) = true := by
  have hmain : (resolveRoute geod post get origin dest).attempts
      = (if usableAttempt post = true then [postAttempt]
         else [postAttempt, getAttempt]) := by
    by_cases hu : usableAttempt post = true
    · have : ¬ (postPhase post).1 = .notDrawn := by
        rw [phase_notDrawn_iff_post]
        simp [hu]
      cases hp : (postPhase post).1 with
      | drawn pts dk dm => simp [resolveRoute, hp, hu]
      | notDrawn => exact absurd hp this
    · have hb : usableAttempt post = false := by
        cases h : usableAttempt post
        · rfl
        · exact absurd h hu
      have hp1 : (postPhase post).1 = .notDrawn :=
        (phase_notDrawn_iff_post post).mpr hb
      cases hg : (getPhase get).1 with
      | drawn pts dk dm => simp [resolveRoute, hp1, hg, hu]
      | notDrawn => simp [resolveRoute, hp1, hg, hu]
  refine ⟨hmain, ?_, ?_⟩
  · rw [hmain]
    by_cases hu : usableAttempt post = true <;> simp [hu]
  · rw [hmain]
    by_cases hu : usableAttempt post = true <;>
      simp [hu, postAttempt, getAttempt]

/-- C7 counterexample: with the cached state (rf = 1, cat = 2), a successful
random-forest predict returning 5 followed by a CatBoost predict that raises
leaves the session state changed to (rf = 5, cat = 2) — not unchanged as the
claim requires — with a single error message that carries only the exception
text, not a stage classification; and a scaler failure propagates uncaught
rather than as a classified inference error. -/
theorem c7_counterexample :
    (predictAction (.ok 5) (.raises "boom") ⟨some 1, some 2⟩).1 ≠
        (⟨some 1, some 2⟩ : PredState) ∧
    (predictAction (.ok 5) (.raises "boom") ⟨some 1, some 2⟩).1
        = (⟨some 5, some 2⟩ : PredState) ∧
    (predictAction (.ok 5) (.raises "boom") ⟨some 1, some 2⟩).2
        = [AppMsg.error (predErrText "boom")] ∧
    runPredictionScript (.raises "scale fail") true (.ok 1) (.ok 2)
        ⟨none, none⟩ = .error "scale fail" := by
  refine ⟨by decide, by decide, by decide, rfl⟩

/-- C7 amended: when a model predict raises inside the guarded button body,
exactly one error message carrying the exception text is emitted and the
cached CatBoost prediction is never updated by the failed invocation; but
when the random-forest predict succeeded before the CatBoost failure its
cached value has already been updated, so the surfaced state can mix old and
new components. When the first (random-forest) predict raises, the state is
fully unchanged. A scaler failure occurs outside the guarded block and
propagates uncaught, not as a classified inference error. -/
theorem c7_amended (s : PredState) (v : ℚ) (m : String)
    (rf cat : ModelOutcome) (pressed : Bool) :
    predictAction (.raises m) cat s = (s, [AppMsg.error (predErrText m)]) ∧
    predictAction (.ok v) (.raises m) s
        = (⟨some v, s.catPred⟩, [AppMsg.error (predErrText m)]) ∧
    (predictAction (.ok v) (.raises m) s).1.catPred = s.catPred ∧
    runPredictionScript (.raises m) pressed rf cat s = .error m := by
  exact ⟨rfl, rfl, rfl, rfl⟩

/-- C8 counterexample: with the API key absent, startup halts the script run
(st.stop) after the error message; it does not proceed into any
credential-less, fallback-only mode. -/
theorem c8_counterexample :
    startupCheck none = .halted apiKeyErrText ∧
    ¬ ∃ k, startupCheck none = .proceed k := by
  refine ⟨rfl, ?_⟩
  rintro ⟨k, hk⟩
  simp [startupCheck] at hk

/-- C8 amended: when the API key is absent from the environment (or empty),
the missing-credential error is surfaced before any route resolution is
attempted — the script issues no network attempt and shows only that error —
and the script run is halted; the app does not continue in a fallback-only
mode. -/
theorem c8_amended (cached : Option ℚ) (geod : Coordinate → Coordinate → ℚ)
    (post get : HttpOutcome) (start station : Coordinate) :
    appsPyTop none cached geod post get start station
        = ([], [AppMsg.error apiKeyErrText]) ∧
    appsPyTop (some "") cached geod post get start station
        = ([], [AppMsg.error apiKeyErrText]) := by
  exact ⟨rfl, rfl⟩

/-- C9: a provider response whose first feature has a geometry type other
than LineString or MultiLineString yields no canonical path from that
attempt, a warning naming the unexpected type is reported, and resolution
advances to the GET attempt instead of failing fatally. -/
theorem c9_unexpected_geometry (g : String) (feat : Feature)
    (rest : List Feature) (geod : Coordinate → Coordinate → ℚ)
    (get : HttpOutcome) (origin dest : Coordinate)
    (hg : feat.geometry = .other g) :
    (draw_route_from_geojson (some ⟨feat :: rest⟩)).1 = .notDrawn ∧
    AppMsg.warning ("Unexpected geometry type from ORS: " ++ g)
        ∈ (draw_route_from_geojson (some ⟨feat :: rest⟩)).2 ∧
    (resolveRoute geod (.success (some ⟨feat :: rest⟩)) get origin dest).attempts
        = [postAttempt, getAttempt] := by
  have hdraw : draw_route_from_geojson (some ⟨feat :: rest⟩)
      = (.notDrawn, [.warning ("Unexpected geometry type from ORS: " ++ g)]) := by
    simp [draw_route_from_geojson, routePoints, hg]
  have hp1 : (postPhase (.success (some ⟨feat :: rest⟩))).1 = .notDrawn := by
    simp [postPhase, hdraw]
  refine ⟨by rw [hdraw], by rw [hdraw]; simp, ?_⟩
  cases hgp : (getPhase get).1 with
  | drawn pts dk dm => simp [resolveRoute, hp1, hgp]
  | notDrawn => simp [resolveRoute, hp1, hgp]

/-- C9 witness: a Point geometry as the only feature, with a 503 GET
response. -/
theorem c9_unexpected_geometry_witness :
    pointFeat.geometry = .other "Point" ∧
    (draw_route_from_geojson (some ⟨[pointFeat]⟩)).1 = .notDrawn ∧
    AppMsg.warning ("Unexpected geometry type from ORS: " ++ "Point")
        ∈ (draw_route_from_geojson (some ⟨[pointFeat]⟩)).2 ∧
    (resolveRoute geodTen (.success (some ⟨[pointFeat]⟩)) http503 cStart
        cStation).attempts = [postAttempt, getAttempt] := by
  have h := c9_unexpected_geometry "Point" pointFeat [] geodTen http503
    cStart cStation (by decide)
  exact ⟨by decide, h.1, h.2.1, h.2.2⟩

/-- C10: in app.py the feasibility comparison runs on every script execution
and references catboost_pred, which is bound only inside the predict-button
branch: on any run where the prediction was not triggered it raises NameError
instead of producing a verdict; apps.py instead guards the whole
routing-and-feasibility section on a cached CatBoost prediction and otherwise
prompts the user to predict first. -/
theorem c10_unguarded_comparison (rf cat : ModelOutcome) (dist : ℚ)
    (geod : Coordinate → Coordinate → ℚ) (post get : HttpOutcome)
    (start station : Coordinate) :
    appPyFeasibility false rf cat dist
        = .error "NameError: name catboost_pred is not defined" ∧
    appsPyGuarded none geod post get start station
        = (none, [AppMsg.info promptText]) := by
  exact ⟨rfl, rfl⟩

end EVRange
